import Mathlib

/-!
Shallow embedding of the SQL Safety Gateway in `server.py` of
Product-Data-Cloud/snowflake-mcp-remote.

Python string operations are modelled on the underlying character lists:
`str.upper` maps `Char.toUpper` over the characters, `str.strip` drops
whitespace at both ends, `a in b` is substring containment, and
`str.startswith` is a prefix test.  Python exceptions are modelled with
`Except`: the external engine (snowflake connector) is a parameter whose
`connect` and `runStmt` operations may fail, and the `try/except` boundary
of each tool converts any raised error into the structured error payload.
Resource events (connection acquire, statement submission, connection
close) are recorded in a trace so that resource-handling claims can be
stated.
-/

namespace SnowflakeMCP

/-- Models Python `str.upper` (ASCII, as used by the source's keywords). -/
def pyUpper (s : String) : String := ⟨s.data.map Char.toUpper⟩

/-- Models Python `str.strip`: drop whitespace at both ends. -/
def pyStrip (s : String) : String :=
  ⟨((s.data.dropWhile Char.isWhitespace).reverse.dropWhile Char.isWhitespace).reverse⟩

/-- Models Python `s.startswith(pre)`. -/
def pyStartsWith (s pre : String) : Bool := pre.data.isPrefixOf s.data

/-- Substring containment on character lists: `pat` occurs somewhere in the list. -/
def listContains (pat : List Char) : List Char → Bool
  | [] => pat.isPrefixOf []
  | c :: cs => pat.isPrefixOf (c :: cs) || listContains pat cs

/-- Models Python `pat in s` (substring containment). -/
def containsSub (s pat : String) : Bool := listContains pat.data s.data

/-- First whitespace-delimited token, models `s.split()[0]` on nonempty input. -/
def firstWordAux : List Char → List Char
  | [] => []
  | c :: cs => if c.isWhitespace then [] else c :: firstWordAux cs

/-- Models `s.split()[0]` (empty string when there is no token). -/
def firstWord (s : String) : String :=
  ⟨firstWordAux (s.data.dropWhile Char.isWhitespace)⟩

/-- Scalar values carried in rows and batch input (the subset of Python
scalars the source's rendering distinguishes: `None`, `bool`, `str`, and
other scalars represented by `int`). -/
inductive Value where
  | null
  | bool (b : Bool)
  | str (s : String)
  | int (n : Int)
deriving DecidableEq

/-- Models `val.replace("'", "''")`: every single quote doubled. -/
def escapeQuotes (s : String) : String :=
  ⟨s.data.flatMap (fun c => if c = '\'' then ['\'', '\''] else [c])⟩

/-- Scalar-to-SQL-literal rendering, from `batch_insert` lines 286-295:
`None` to `NULL`, strings quoted with quote doubling, booleans to
`TRUE`/`FALSE`, anything else via `str(val)`. -/
def renderLiteral : Value → String
  | .null => "NULL"
  | .str s => "'" ++ escapeQuotes s ++ "'"
  | .bool b => if b then "TRUE" else "FALSE"
  | .int n => toString n

-- Configuration constants (server.py lines 27-28).
def DEFAULT_MAX_ROWS : Int := 20
def MAX_ROWS_LIMIT : Int := 1000

/-- `enforce_limit` (server.py lines 52-69): add `LIMIT` to SELECT queries
that have none, except aggregate-only queries. -/
def enforce_limit (sql : String) (max_rows : Int) : String :=
  let sql_upper := pyUpper (pyStrip sql)
  if containsSub sql_upper "LIMIT" then sql
  else if pyStartsWith sql_upper "SELECT" then
    if containsSub sql_upper "COUNT(" && !containsSub sql_upper "GROUP BY" then sql
    else pyStrip sql ++ " LIMIT " ++ toString max_rows
  else sql

-- Column-name patterns marking large fields (server.py line 77).
def large_patterns : List String := ["JSON", "DATA", "RESPONSE", "CONTENT", "DESCRIPTION"]

/-- A result row, as the dict built by `dict(zip(columns, row))`: an
association list from column name to value. -/
abbrev Row := List (String × Value)

/-- Models Python `row.get(col)`: the value bound to `col`, `None` when absent. -/
def rowGet (row : Row) (col : String) : Value :=
  match row.find? (fun p => p.1 = col) with
  | some p => p.2
  | none => .null

/-- `optimize_columns` (server.py lines 71-96): truncate oversized string
values in columns whose name suggests large content. -/
def optimize_columns (data : List Row) (columns : List String) : List Row :=
  if data.isEmpty then data
  else
    data.map (fun row =>
      columns.map (fun col =>
        let value := rowGet row col
        let is_large := large_patterns.any (fun pat => containsSub (pyUpper col) pat)
        match value with
        | .str s =>
          if is_large && s.length > 500 then
            (col, .str ((s.take 500) ++ "... [truncated " ++ toString (s.length - 500) ++ " chars]"))
          else
            (col, value)
        | _ => (col, value)))

-- The keyword allow-list (server.py lines 131-137).
def allowed_starts : List String :=
  ["SELECT", "SHOW", "DESCRIBE", "CREATE", "ALTER",
   "INSERT", "UPDATE", "DELETE", "MERGE", "BEGIN", "COMMIT", "ROLLBACK"]

-- The blocked keywords (server.py line 147).
def extremely_dangerous : List String := ["DROP", "TRUNCATE"]

/-- A safety decision: proceed to execution, or return an error payload. -/
inductive Decision where
  | allow
  | deny (reason : String)
deriving DecidableEq

/-- The safety-policy checks of `snowflake_query` (server.py lines 128-165),
in source order: keyword allow-list, DROP/TRUNCATE substring block, and the
WHERE requirement for UPDATE/DELETE (skipped for MERGE). -/
def evaluate (sql : String) : Decision :=
  let sql_upper := pyUpper (pyStrip sql)
  if !(allowed_starts.any (fun k => pyStartsWith sql_upper k)) then
    .deny ("Only " ++ String.intercalate ", " allowed_starts ++ " operations allowed")
  else if extremely_dangerous.any (fun k => containsSub sql_upper k) then
    .deny "DROP/TRUNCATE not allowed for safety"
  else if !pyStartsWith sql_upper "MERGE"
      && (pyStartsWith sql_upper "UPDATE" || pyStartsWith sql_upper "DELETE")
      && !containsSub sql_upper "WHERE" then
    .deny "UPDATE/DELETE requires WHERE clause for safety"
  else
    .allow

/-- Resource events of one tool call, in order of occurrence. -/
inductive Event where
  | acquire
  | execute (sql : String)
  | release
deriving DecidableEq

/-- What the external engine holds after executing a statement: the
cursor's description (column names), its full result set, and `rowcount`. -/
structure EngineOut where
  columns : List String
  rows : List (List Value)
  rowcount : Int
deriving DecidableEq

/-- The external database collaborator: connection acquisition and
statement execution, each of which may raise. -/
structure Engine where
  connect : Except String Unit
  runStmt : String → Except String EngineOut

-- Statement-kind dispatch tuples (server.py lines 180 and 203).
def readStarts : List String := ["SELECT", "SHOW", "DESCRIBE"]
def txStarts : List String := ["BEGIN", "COMMIT", "ROLLBACK"]

/-- The structured result dict of a tool call: one constructor per distinct
success shape the source returns, plus the error payload produced by the
`except` boundary. -/
inductive QueryResult where
  | rowsOk (data : List Row) (columns : List String) (row_count : Nat)
  | txOk (message : String)
  | execOk (message : String) (rows_affected : Option Int)
  | batchOk (message : String) (rows_inserted : Nat) (rows_affected : Int)
  | err (msg : String)
deriving DecidableEq

/-- The `success` field of the returned dict. -/
def QueryResult.success : QueryResult → Bool
  | .err _ => false
  | _ => true

/-- The `error` field of the returned dict. -/
def QueryResult.errorMsg : QueryResult → Option String
  | .err m => some m
  | _ => none

/-- `snowflake_query` (server.py lines 98-238): range check, safety policy,
limit enforcement, execution against the engine, and result shaping, with
every raised error converted to an error payload at the `except` boundary.
Returns the result together with the trace of resource events. -/
def snowflake_query (eng : Engine) (sql : String) (max_rows : Int) :
    QueryResult × List Event :=
  if max_rows < 1 ∨ MAX_ROWS_LIMIT < max_rows then
    (.err ("max_rows must be between 1 and " ++ toString MAX_ROWS_LIMIT), [])
  else
    match evaluate sql with
    | .deny reason => (.err reason, [])
    | .allow =>
      let sql_upper := pyUpper (pyStrip sql)
      let optimized_sql := enforce_limit sql max_rows
      match eng.connect with
      | .error e => (.err e, [])
      | .ok _ =>
        match eng.runStmt optimized_sql with
        | .error e => (.err e, [.acquire, .execute optimized_sql])
        | .ok out =>
          if readStarts.any (fun k => pyStartsWith sql_upper k) then
            let results := out.rows.take max_rows.toNat
            let columns := out.columns
            let data := results.map (fun row => columns.zip row)
            let optimized_data := optimize_columns data columns
            (.rowsOk optimized_data columns optimized_data.length,
             [.acquire, .execute optimized_sql, .release])
          else if txStarts.any (fun k => pyStartsWith sql_upper k) then
            (.txOk (firstWord sql_upper ++ " executed successfully"),
             [.acquire, .execute optimized_sql, .release])
          else
            (.execOk (firstWord sql_upper ++ " executed successfully")
               (if 0 ≤ out.rowcount then some out.rowcount else none),
             [.acquire, .execute optimized_sql, .release])

/-- The multi-row INSERT text synthesized by `batch_insert`
(server.py lines 278-301). -/
def buildSql (table : String) (columns : List String) (values : List (List Value)) :
    String :=
  let cols_str := String.intercalate ", " columns
  let value_rows := values.map (fun row =>
    "(" ++ String.intercalate ", " (row.map renderLiteral) ++ ")")
  let values_str := String.intercalate ",\n  " value_rows
  "INSERT INTO " ++ table ++ " (" ++ cols_str ++ ") VALUES\n  " ++ values_str

/-- `batch_insert` (server.py lines 240-325): reject an empty row set,
synthesize the multi-row INSERT, execute it, with raised errors converted
to the error payload.  Returns the result with the resource-event trace. -/
def batch_insert (eng : Engine) (table : String) (columns : List String)
    (values : List (List Value)) : QueryResult × List Event :=
  if values.isEmpty then (.err "No values provided", [])
  else
    let sql := buildSql table columns values
    match eng.connect with
    | .error e => (.err e, [])
    | .ok _ =>
      match eng.runStmt sql with
      | .error e => (.err e, [.acquire, .execute sql])
      | .ok out =>
        (.batchOk "Batch INSERT executed successfully" values.length
           (if 0 ≤ out.rowcount then out.rowcount else (values.length : Int)),
         [.acquire, .execute sql, .release])

/-- A benignly succeeding engine used to instantiate theorems at concrete
inputs. -/
def engOk : Engine :=
  { connect := .ok ()
    runStmt := fun _ => .ok { columns := ["A"], rows := [[.int 1], [.int 2], [.int 3]], rowcount := 3 } }

/-- An engine whose statement execution raises, modelling an engine-side
failure after a connection has been acquired. -/
def engFail : Engine :=
  { connect := .ok ()
    runStmt := fun _ => .error "boom" }

/-- The Response Shaper as the specification words it: a value is replaced
exactly when the upper-cased column name contains one of the five marker
substrings and the value is text longer than 500 characters, by the first
500 characters followed by the elision marker; every other value, null
included, passes through unchanged. -/
def specShapedValue (col : String) (v : Value) : Value :=
  match v with
  | .str s =>
    if (["JSON", "DATA", "RESPONSE", "CONTENT", "DESCRIPTION"].any
          fun pat => containsSub (pyUpper col) pat) && 500 < s.length then
      .str ((s.take 500) ++ "... [truncated " ++ toString (s.length - 500) ++ " chars]")
    else .str s
  | v => v

/-! ## Helper lemmas -/

theorem optimize_columns_length (data : List Row) (columns : List String) :
    (optimize_columns data columns).length = data.length := by
  unfold optimize_columns
  split
  · rfl
  · simp

theorem isPrefixOf_head_ne {a b : Char} (as bs : List Char) {l : List Char} (h : a ≠ b)
    (hp : (a :: as).isPrefixOf l = true) : (b :: bs).isPrefixOf l = false := by
  cases l with
  | nil => simp [List.isPrefixOf] at hp
  | cons c cs =>
    simp only [List.isPrefixOf, Bool.and_eq_true, beq_iff_eq] at hp
    simp only [List.isPrefixOf, Bool.and_eq_false_iff, beq_eq_false_iff_ne, ne_eq]
    exact Or.inl (hp.1 ▸ h ∘ Eq.symm)

theorem startsWith_UD_not_merge {u : String}
    (h : (pyStartsWith u "UPDATE" || pyStartsWith u "DELETE") = true) :
    pyStartsWith u "MERGE" = false := by
  have e2 : "MERGE".data = 'M' :: "ERGE".data := rfl
  rcases (by simpa using h : pyStartsWith u "UPDATE" = true ∨ pyStartsWith u "DELETE" = true)
    with h' | h'
  · have e1 : "UPDATE".data = 'U' :: "PDATE".data := rfl
    unfold pyStartsWith at h' ⊢
    rw [e1] at h'
    rw [e2]
    exact isPrefixOf_head_ne _ _ (by decide) h'
  · have e1 : "DELETE".data = 'D' :: "ELETE".data := rfl
    unfold pyStartsWith at h' ⊢
    rw [e1] at h'
    rw [e2]
    exact isPrefixOf_head_ne _ _ (by decide) h'

theorem evaluate_dangerous (sql : String)
    (h : containsSub (pyUpper (pyStrip sql)) "DROP" = true ∨
         containsSub (pyUpper (pyStrip sql)) "TRUNCATE" = true) :
    ∃ r, evaluate sql = Decision.deny r := by
  unfold evaluate
  simp only []
  split
  · exact ⟨_, rfl⟩
  · rw [if_pos]
    · exact ⟨_, rfl⟩
    · simp only [extremely_dangerous, List.any_cons, List.any_nil, Bool.or_false,
        Bool.or_eq_true]
      exact h

/-! ## Claims -/

/-- C1: the claim states that every acquired connection is closed on every
exit path of `snowflake_query` and `batch_insert`, including when statement
execution raises.  On the code this fails: when the engine raises during
`cursor.execute`, the `except` handler returns the error payload without
closing the connection, for both tools, as this concrete run shows. -/
theorem c1_connection_leak_on_engine_error :
    (snowflake_query engFail "SELECT 1" 20).1 = QueryResult.err "boom" ∧
    (snowflake_query engFail "SELECT 1" 20).2 =
      [Event.acquire, Event.execute "SELECT 1 LIMIT 20"] ∧
    Event.release ∉ (snowflake_query engFail "SELECT 1" 20).2 ∧
    (batch_insert engFail "T" ["A"] [[Value.int 1]]).1 = QueryResult.err "boom" ∧
    (batch_insert engFail "T" ["A"] [[Value.int 1]]).2 =
      [Event.acquire, Event.execute "INSERT INTO T (A) VALUES\n  (1)"] ∧
    Event.release ∉ (batch_insert engFail "T" ["A"] [[Value.int 1]]).2 := by
  decide

/-- C2: for every SQL text whose trimmed upper-cased form contains DROP or
TRUNCATE anywhere, `snowflake_query` returns an error result (success
false) and never submits any statement for execution, regardless of the
statement's kind, the row limit, or the engine's behaviour. -/
theorem c2_drop_truncate_always_blocked (eng : Engine) (sql : String) (max_rows : Int)
    (h : containsSub (pyUpper (pyStrip sql)) "DROP" = true ∨
         containsSub (pyUpper (pyStrip sql)) "TRUNCATE" = true) :
    (snowflake_query eng sql max_rows).1.success = false ∧
    ∀ s, Event.execute s ∉ (snowflake_query eng sql max_rows).2 := by
  obtain ⟨r, hr⟩ := evaluate_dangerous sql h
  unfold snowflake_query
  by_cases hmr : max_rows < 1 ∨ MAX_ROWS_LIMIT < max_rows
  · simp [hmr, QueryResult.success]
  · simp [hmr, hr, QueryResult.success]

theorem c2_drop_truncate_always_blocked_witness :
    (containsSub (pyUpper (pyStrip "DROP TABLE T")) "DROP" = true ∨
     containsSub (pyUpper (pyStrip "DROP TABLE T")) "TRUNCATE" = true) ∧
    ((snowflake_query engOk "DROP TABLE T" 20).1.success = false ∧
     ∀ s, Event.execute s ∉ (snowflake_query engOk "DROP TABLE T" 20).2) :=
  ⟨Or.inl (by decide),
   c2_drop_truncate_always_blocked engOk "DROP TABLE T" 20 (Or.inl (by decide))⟩

/-- C3: every failure of every kind is returned to the caller as a
structured error payload, never raised: a range violation returns the
range message, a policy denial returns the denial reason, a raising
connection acquisition returns the raised message, a raising statement
execution returns the raised message, an empty batch returns the
validation message, and the same for the batch tool's engine failures;
and an error payload has success false and carries its message string. -/
theorem c3_failures_are_structured (eng : Engine) (sql : String) (max_rows : Int)
    (table : String) (columns : List String) (values : List (List Value)) :
    ((max_rows < 1 ∨ MAX_ROWS_LIMIT < max_rows) →
       snowflake_query eng sql max_rows =
         (QueryResult.err ("max_rows must be between 1 and " ++ toString MAX_ROWS_LIMIT), [])) ∧
    (∀ r, ¬(max_rows < 1 ∨ MAX_ROWS_LIMIT < max_rows) → evaluate sql = Decision.deny r →
       snowflake_query eng sql max_rows = (QueryResult.err r, [])) ∧
    (∀ e, ¬(max_rows < 1 ∨ MAX_ROWS_LIMIT < max_rows) → evaluate sql = Decision.allow →
       eng.connect = Except.error e →
       snowflake_query eng sql max_rows = (QueryResult.err e, [])) ∧
    (∀ e, ¬(max_rows < 1 ∨ MAX_ROWS_LIMIT < max_rows) → evaluate sql = Decision.allow →
       eng.connect = Except.ok () →
       eng.runStmt (enforce_limit sql max_rows) = Except.error e →
       (snowflake_query eng sql max_rows).1 = QueryResult.err e) ∧
    (values.isEmpty = true →
       batch_insert eng table columns values = (QueryResult.err "No values provided", [])) ∧
    (∀ e, values.isEmpty = false → eng.connect = Except.error e →
       batch_insert eng table columns values = (QueryResult.err e, [])) ∧
    (∀ e, values.isEmpty = false → eng.connect = Except.ok () →
       eng.runStmt (buildSql table columns values) = Except.error e →
       (batch_insert eng table columns values).1 = QueryResult.err e) ∧
    (∀ m, (QueryResult.err m).success = false ∧ (QueryResult.err m).errorMsg = some m) := by
  refine ⟨?_, ?_, ?_, ?_, ?_, ?_, ?_, fun m => ⟨rfl, rfl⟩⟩
  · intro hmr
    simp [snowflake_query, hmr]
  · intro r hmr hd
    simp [snowflake_query, hmr, hd]
  · intro e hmr hallow hconn
    simp [snowflake_query, hmr, hallow, hconn]
  · intro e hmr hallow hconn hrun
    simp [snowflake_query, hmr, hallow, hconn, hrun]
  · intro he
    simp [batch_insert, he]
  · intro e he hconn
    simp [batch_insert, he, hconn]
  · intro e he hconn hrun
    simp [batch_insert, he, hconn, hrun]

theorem c3_failures_are_structured_witness :
    snowflake_query engOk "SELECT 1" 0 =
      (QueryResult.err "max_rows must be between 1 and 1000", []) ∧
    snowflake_query engOk "DELETE FROM T" 20 =
      (QueryResult.err "UPDATE/DELETE requires WHERE clause for safety", []) ∧
    (snowflake_query engFail "SELECT 1" 20).1 = QueryResult.err "boom" ∧
    batch_insert engOk "T" ["A"] [] = (QueryResult.err "No values provided", []) ∧
    (batch_insert engFail "T" ["A"] [[Value.int 1]]).1 = QueryResult.err "boom" :=
  ⟨((c3_failures_are_structured engOk "SELECT 1" 0 "T" ["A"] []).1
      (Or.inl (by decide))).trans (by decide),
   (c3_failures_are_structured engOk "DELETE FROM T" 20 "T" ["A"] []).2.1
     "UPDATE/DELETE requires WHERE clause for safety" (by decide) (by decide),
   (c3_failures_are_structured engFail "SELECT 1" 20 "T" ["A"] []).2.2.2.1
     "boom" (by decide) (by decide) rfl rfl,
   (c3_failures_are_structured engOk "SELECT 1" 20 "T" ["A"] []).2.2.2.2.1 rfl,
   (c3_failures_are_structured engFail "SELECT 1" 20 "T" ["A"] [[Value.int 1]]).2.2.2.2.2.2.1
     "boom" rfl rfl rfl⟩

/-- C4 counterexample: the claim states that adding a WHERE token to an
UPDATE/DELETE statement flips the decision to allow, all else equal.  On
the code this fails when the text also contains DROP as a substring (here,
inside the table name DROPS): the statement is denied with or without
WHERE. -/
theorem c4_where_flip_counterexample :
    pyStartsWith (pyUpper (pyStrip "DELETE FROM DROPS WHERE ID = 1")) "DELETE" = true ∧
    containsSub (pyUpper (pyStrip "DELETE FROM DROPS WHERE ID = 1")) "WHERE" = true ∧
    evaluate "DELETE FROM DROPS" = Decision.deny "DROP/TRUNCATE not allowed for safety" ∧
    evaluate "DELETE FROM DROPS WHERE ID = 1" ≠ Decision.allow := by
  decide

/-- C4 amended: a text starting with UPDATE or DELETE and containing no
WHERE token is always denied; adding a WHERE token flips the decision to
allow provided the text contains neither DROP nor TRUNCATE, which are
denied regardless of WHERE. -/
theorem c4_where_requirement_amended (sql : String) :
    ((pyStartsWith (pyUpper (pyStrip sql)) "UPDATE" = true ∨
      pyStartsWith (pyUpper (pyStrip sql)) "DELETE" = true) →
     containsSub (pyUpper (pyStrip sql)) "WHERE" = false →
     ∃ r, evaluate sql = Decision.deny r) ∧
    ((pyStartsWith (pyUpper (pyStrip sql)) "UPDATE" = true ∨
      pyStartsWith (pyUpper (pyStrip sql)) "DELETE" = true) →
     containsSub (pyUpper (pyStrip sql)) "WHERE" = true →
     containsSub (pyUpper (pyStrip sql)) "DROP" = false →
     containsSub (pyUpper (pyStrip sql)) "TRUNCATE" = false →
     evaluate sql = Decision.allow) := by
  constructor
  · intro hUD hW
    have hUD' : (pyStartsWith (pyUpper (pyStrip sql)) "UPDATE" ||
        pyStartsWith (pyUpper (pyStrip sql)) "DELETE") = true := by
      rcases hUD with h' | h' <;> simp [h']
    unfold evaluate
    simp only []
    split
    · exact ⟨_, rfl⟩
    · split
      · exact ⟨_, rfl⟩
      · rw [if_pos]
        · exact ⟨_, rfl⟩
        · simp [startsWith_UD_not_merge hUD', hUD', hW]
  · intro hUD hW hD hT
    have h1 : allowed_starts.any (fun k => pyStartsWith (pyUpper (pyStrip sql)) k) = true := by
      rcases hUD with h' | h' <;> simp [allowed_starts, h']
    simp [evaluate, h1, extremely_dangerous, hD, hT, hW]

theorem c4_where_requirement_amended_witness :
    (∃ r, evaluate "DELETE FROM T" = Decision.deny r) ∧
    evaluate "UPDATE T SET X = 1 WHERE ID = 2" = Decision.allow :=
  ⟨(c4_where_requirement_amended "DELETE FROM T").1 (Or.inr (by decide)) (by decide),
   (c4_where_requirement_amended "UPDATE T SET X = 1 WHERE ID = 2").2
     (Or.inl (by decide)) (by decide) (by decide) (by decide)⟩

/-- C5: whenever `snowflake_query` returns a rows envelope, the data list
and the reported row count never exceed the row limit, for every engine
result set and every SQL text. -/
theorem c5_row_count_bounded (eng : Engine) (sql : String) (max_rows : Int)
    (data : List Row) (cols : List String) (n : Nat)
    (h : (snowflake_query eng sql max_rows).1 = QueryResult.rowsOk data cols n) :
    data.length ≤ max_rows.toNat ∧ n ≤ max_rows.toNat := by
  unfold snowflake_query at h
  simp only [] at h
  split at h
  · simp at h
  · split at h
    · simp at h
    · split at h
      · simp at h
      · split at h
        · simp at h
        · split at h
          · injection h with h1 h2 h3
            subst h1
            subst h3
            refine ⟨?_, ?_⟩ <;>
              · rw [optimize_columns_length]
                simp [List.length_take]
          · split at h <;> simp at h

theorem c5_row_count_bounded_witness :
    ([[("A", Value.int 1)], [("A", Value.int 2)]] : List Row).length ≤ (2 : Int).toNat ∧
    2 ≤ (2 : Int).toNat :=
  c5_row_count_bounded engOk "SELECT 1" 2
    [[("A", Value.int 1)], [("A", Value.int 2)]] ["A"] 2 (by decide)

/-- C6 counterexample: the claim states the concrete batch build yields
exactly one-line text with single spaces; the code joins the value tuples
with a newline and two-space indentation, so the claimed exact text is not
produced. -/
theorem c6_build_text_counterexample :
    buildSql "T" ["A", "B"] [[Value.int 1, Value.str "x"], [Value.int 2, Value.str "y's"]] ≠
      "INSERT INTO T (A, B) VALUES (1, 'x'), (2, 'y''s')" := by
  decide

/-- C6 amended: each scalar is rendered per the literal rules (null as
NULL, booleans as TRUE/FALSE, strings single-quoted with every embedded
single quote doubled, other scalars as their textual representation), and
the concrete build yields the multi-line text with tuples joined by a
newline and two-space indentation. -/
theorem c6_literal_rendering_amended :
    renderLiteral Value.null = "NULL" ∧
    renderLiteral (Value.bool true) = "TRUE" ∧
    renderLiteral (Value.bool false) = "FALSE" ∧
    (∀ s : String, (renderLiteral (Value.str s)).data =
       '\'' :: ((s.data.flatMap fun c => if c = '\'' then ['\'', '\''] else [c]) ++ ['\''])) ∧
    (∀ n : Int, renderLiteral (Value.int n) = toString n) ∧
    buildSql "T" ["A", "B"] [[Value.int 1, Value.str "x"], [Value.int 2, Value.str "y's"]] =
      "INSERT INTO T (A, B) VALUES\n  (1, 'x'),\n  (2, 'y''s')" := by
  refine ⟨rfl, rfl, rfl, ?_, fun n => rfl, by decide⟩
  intro s
  simp [renderLiteral, escapeQuotes]

/-- C7: the Response Shaper replaces a value exactly when the upper-cased
column name contains one of the marker substrings and the value is a
string longer than 500 characters, by the 500-character cut plus the
elision marker, and passes every other value through unchanged: the
source's `optimize_columns` coincides with the specification-worded
shaper on every input. -/
theorem c7_shaper_exact (data : List Row) (columns : List String) :
    optimize_columns data columns =
      data.map (fun row => columns.map (fun col => (col, specShapedValue col (rowGet row col)))) := by
  unfold optimize_columns
  split
  · next hemp =>
    rw [List.isEmpty_iff.mp hemp]
    simp
  · refine List.map_congr_left fun row _ => ?_
    refine List.map_congr_left fun col _ => ?_
    simp only [specShapedValue, large_patterns]
    cases rowGet row col <;> simp
    split <;> rfl

/-- C8 counterexample: the claim states that SHOW and DESCRIBE statements
without a LIMIT token get LIMIT appended; the code only rewrites SELECT,
so a SHOW statement is returned unchanged. -/
theorem c8_show_counterexample :
    pyStartsWith (pyUpper (pyStrip "SHOW TABLES")) "SHOW" = true ∧
    containsSub (pyUpper (pyStrip "SHOW TABLES")) "LIMIT" = false ∧
    containsSub (pyUpper (pyStrip "SHOW TABLES")) "COUNT(" = false ∧
    enforce_limit "SHOW TABLES" 20 = "SHOW TABLES" ∧
    "SHOW TABLES" ≠ pyStrip "SHOW TABLES" ++ " LIMIT " ++ toString (20 : Int) := by
  decide

/-- C8 amended: the Limit Enforcer appends the LIMIT suffix to the trimmed
text exactly for statements whose trimmed upper-cased form starts with
SELECT, contains no LIMIT token and is not aggregate-only; every statement
not starting with SELECT, including SHOW and DESCRIBE, is returned
unchanged. -/
theorem c8_limit_append_amended (sql : String) (max_rows : Int) :
    (pyStartsWith (pyUpper (pyStrip sql)) "SELECT" = false →
     enforce_limit sql max_rows = sql) ∧
    (containsSub (pyUpper (pyStrip sql)) "LIMIT" = false →
     pyStartsWith (pyUpper (pyStrip sql)) "SELECT" = true →
     (containsSub (pyUpper (pyStrip sql)) "COUNT(" &&
       !containsSub (pyUpper (pyStrip sql)) "GROUP BY") = false →
     enforce_limit sql max_rows = pyStrip sql ++ " LIMIT " ++ toString max_rows) := by
  constructor
  · intro hS
    unfold enforce_limit
    simp only []
    split
    · rfl
    · simp [hS]
  · intro hL hS hC
    simp [enforce_limit, hL, hS, hC]

theorem c8_limit_append_amended_witness :
    enforce_limit "SHOW TABLES" 20 = "SHOW TABLES" ∧
    enforce_limit "SELECT * FROM T" 20 = "SELECT * FROM T LIMIT 20" :=
  ⟨(c8_limit_append_amended "SHOW TABLES" 20).1 (by decide),
   ((c8_limit_append_amended "SELECT * FROM T" 20).2 (by decide) (by decide) (by decide)).trans
     (by decide)⟩

/-- C9 counterexample: the claim states that a row whose length differs
from the columns list is rejected as a validation failure with no
statement executed and no connection acquired; the code has no such check:
the mismatched INSERT is synthesized, a connection is acquired, the
statement is executed, and the call reports success. -/
theorem c9_mismatch_counterexample :
    ([Value.int 1] : List Value).length ≠ (["A", "B"] : List String).length ∧
    (batch_insert engOk "T" ["A", "B"] [[Value.int 1]]).1.success = true ∧
    (batch_insert engOk "T" ["A", "B"] [[Value.int 1]]).2 =
      [Event.acquire, Event.execute "INSERT INTO T (A, B) VALUES\n  (1)", Event.release] := by
  decide

/-- C9 amended: `batch_insert` fails with the validation error (no
statement executed, no connection acquired) exactly when the row set is
empty; a column/value-count mismatch is not checked: for every nonempty
row set the synthesized INSERT is submitted to the engine once a
connection is acquired. -/
theorem c9_empty_only_validation_amended (eng : Engine) (table : String)
    (columns : List String) (values : List (List Value)) :
    (values.isEmpty = true →
       batch_insert eng table columns values = (QueryResult.err "No values provided", [])) ∧
    (values.isEmpty = false → eng.connect = Except.ok () →
       Event.acquire ∈ (batch_insert eng table columns values).2 ∧
       Event.execute (buildSql table columns values) ∈ (batch_insert eng table columns values).2) := by
  constructor
  · intro he
    simp [batch_insert, he]
  · intro he hc
    simp only [batch_insert, he, Bool.false_eq_true, if_false, hc]
    cases eng.runStmt (buildSql table columns values) <;> simp

theorem c9_empty_only_validation_amended_witness :
    batch_insert engOk "T" ["A"] [] = (QueryResult.err "No values provided", []) ∧
    (Event.acquire ∈ (batch_insert engOk "T" ["A", "B"] [[Value.int 1]]).2 ∧
     Event.execute (buildSql "T" ["A", "B"] [[Value.int 1]]) ∈
       (batch_insert engOk "T" ["A", "B"] [[Value.int 1]]).2) :=
  ⟨(c9_empty_only_validation_amended engOk "T" ["A"] []).1 rfl,
   (c9_empty_only_validation_amended engOk "T" ["A", "B"] [[Value.int 1]]).2 (by decide) rfl⟩

/-- C10: `batch_insert` never evaluates the safety policy: for every
nonempty input the text submitted for execution is exactly the synthesized
INSERT with table and columns interpolated verbatim, and in particular a
table name containing DROP produces a statement that the policy would deny
yet is submitted to the engine. -/
theorem c10_batch_bypasses_policy :
    (∀ (eng : Engine) (table : String) (columns : List String) (values : List (List Value)),
       values.isEmpty = false → eng.connect = Except.ok () →
       Event.execute (buildSql table columns values) ∈ (batch_insert eng table columns values).2) ∧
    (∀ (eng : Engine) (table : String) (columns : List String) (values : List (List Value))
       (s : String), Event.execute s ∈ (batch_insert eng table columns values).2 →
       s = buildSql table columns values) ∧
    (evaluate (buildSql "DROP_LOG" ["A"] [[Value.int 1]]) =
       Decision.deny "DROP/TRUNCATE not allowed for safety" ∧
     containsSub (buildSql "DROP_LOG" ["A"] [[Value.int 1]]) "DROP" = true ∧
     Event.execute (buildSql "DROP_LOG" ["A"] [[Value.int 1]]) ∈
       (batch_insert engOk "DROP_LOG" ["A"] [[Value.int 1]]).2) := by
  refine ⟨?_, ?_, by decide⟩
  · intro eng table columns values he hc
    simp only [batch_insert, he, Bool.false_eq_true, if_false, hc]
    cases eng.runStmt (buildSql table columns values) <;> simp
  · intro eng table columns values s hmem
    unfold batch_insert at hmem
    split at hmem
    · simp at hmem
    · simp only [] at hmem
      split at hmem
      · simp at hmem
      · split at hmem <;> simp_all

theorem c10_batch_bypasses_policy_witness :
    Event.execute (buildSql "T" ["A"] [[Value.int 1]]) ∈
      (batch_insert engOk "T" ["A"] [[Value.int 1]]).2 ∧
    "INSERT INTO T (A) VALUES\n  (1)" = buildSql "T" ["A"] [[Value.int 1]] :=
  ⟨c10_batch_bypasses_policy.1 engOk "T" ["A"] [[Value.int 1]] (by decide) rfl,
   c10_batch_bypasses_policy.2.1 engOk "T" ["A"] [[Value.int 1]]
     "INSERT INTO T (A) VALUES\n  (1)" (by decide)⟩

end SnowflakeMCP
